import Mathlib

/-!
A verification development for a small web-scraper-and-summarizer program.

The program consists of two Python modules:

* `scraper.py` — a `ScraperSummarizer` class that normalizes a URL with
  `urllib.parse` (`set_url`), drives a Selenium browser session to fetch the
  page (`summarize`), post-processes the extracted text (word truncation,
  quote stripping), and guarantees the browser session is released
  (`close`).
* `summarizer.py` — `summarize_text`, which makes two sequential
  chat-completion API calls: language detection (max tokens 100) and summary
  generation (max tokens 1024).

The development shallowly embeds these functions in Lean.  Pure string
processing is translated directly; the browser driver, the HTML extractor
(BeautifulSoup) and the completion API are external collaborators and are
modelled as oracles supplied through an environment record; exceptions are
modelled with `Except`.
-/

/-! ## Python string primitives

Python's `str.split()` (no argument), `str.strip()` and `' '.join` are used
by the program.  `str.split()` and `str.strip()` treat as whitespace the
characters listed in CPython's `Py_UNICODE_ISSPACE`.
-/

/-- The Python whitespace predicate (`str.isspace`, and the separator set of
`str.split()` / `str.strip()` with no argument). -/
def pyIsSpace (c : Char) : Bool :=
  let n := c.toNat
  (0x09 ≤ n && n ≤ 0x0d) || (0x1c ≤ n && n ≤ 0x1f) || n == 0x20 ||
  n == 0x85 || n == 0xa0 || n == 0x1680 || (0x2000 ≤ n && n ≤ 0x200a) ||
  n == 0x2028 || n == 0x2029 || n == 0x202f || n == 0x205f || n == 0x3000

/-- Helper for `pyWords`: splits a character list at runs of Python
whitespace, accumulating the current (reversed) word. -/
def pySplitAux : List Char → List Char → List (List Char)
  | [], acc => if acc.isEmpty then [] else [acc.reverse]
  | c :: cs, acc =>
    if pyIsSpace c then
      if acc.isEmpty then pySplitAux cs [] else acc.reverse :: pySplitAux cs []
    else pySplitAux cs (c :: acc)

/-- Python `text.split()`: the maximal runs of non-whitespace characters
(leading/trailing whitespace ignored, empty pieces dropped). -/
def pyWords (s : String) : List (List Char) :=
  pySplitAux s.data []

/-- Python `' '.join(words)`: intercalates a single space. -/
def joinSpaces : List (List Char) → List Char
  | [] => []
  | [w] => w
  | w :: ws => w ++ ' ' :: joinSpaces ws

/-- Python `s.strip()`: drops leading and trailing Python whitespace. -/
def pyStrip (s : String) : String :=
  ⟨(((s.data.dropWhile pyIsSpace).reverse.dropWhile pyIsSpace).reverse)⟩

/-! ## Text post-processing from `ScraperSummarizer.summarize`

`scraper.py` lines 174–180:

    number_of_words = 5000
    words = stripped_text.split()
    reduced_content = ' '.join(words[:number_of_words])
    reduced_content = reduced_content.replace("'", "").replace('"', '')
-/

/-- `scraper.py`: the truncation threshold `number_of_words = 5000`. -/
def number_of_words : Nat := 5000

/-- `' '.join(stripped_text.split()[:number_of_words])` from
`ScraperSummarizer.summarize`. -/
def reduceContent (stripped_text : String) : String :=
  ⟨joinSpaces ((pyWords stripped_text).take number_of_words)⟩

/-- The single-quote character (code point 39). -/
def sQuoteChar : Char := Char.ofNat 39

/-- The double-quote character (code point 34). -/
def dQuoteChar : Char := Char.ofNat 34

/-- Python `s.replace(old, "")` for a single-character `old`: removes every
occurrence of that character. -/
def pyRemoveChar (c : Char) (s : String) : String :=
  ⟨s.data.filter (fun a => a != c)⟩

/-- `reduced_content.replace("'", "").replace('"', '')` from
`ScraperSummarizer.summarize`. -/
def removeQuotes (s : String) : String :=
  pyRemoveChar dQuoteChar (pyRemoveChar sQuoteChar s)

/-- Whitespace normalization: split into words and re-join with single
spaces.  (`' '.join(s.split())` — the N-or-fewer-words case of the
truncation step computes exactly this.) -/
def wsNormalize (s : String) : String :=
  ⟨joinSpaces (pyWords s)⟩

/-! ## The scraper state machine (`scraper.py`)

The browser driver, the HTML extractor and the summarization API are
external collaborators; each step that can raise is modelled as an
`Except String` result supplied by a `FetchEnv` oracle.  The
`ScraperSummarizer` instance state is the `url` attribute and the `driver`
handle (opaque, so `Option Unit`).  `summarize` additionally reports the
list of external interactions it attempted, in order.
-/

/-- An external interaction attempted by `ScraperSummarizer.summarize`. -/
inductive Effect where
  | initDriver
  | navigate
  | execScript
  | getSource
  | apiCall
  | quitDriver
deriving DecidableEq, Repr

/-- The mutable attributes of a `ScraperSummarizer` instance that the
verified methods touch: `self.url` and `self.driver`. -/
structure ScraperState where
  url : Option String
  driver : Option Unit
deriving DecidableEq, Repr

/-- Outcome of `init_driver`'s `try` block when no driver exists yet:
success assigns `self.driver`; an exception may occur before the
`self.driver = Driver(...)` assignment (driver stays `None`) or after it
(e.g. in `set_page_load_timeout`), in which case the handle is assigned but
the exception is re-raised. -/
inductive InitOutcome where
  | ok
  | failBeforeAssign (msg : String)
  | failAfterAssign (msg : String)

/-- Oracle for the external collaborators of one `summarize` call: driver
creation, `driver.get`, `execute_script`, `page_source`, BeautifulSoup
text extraction, and `summarize_text`'s API round trips.  `quitRaises`
says whether `driver.quit()` raises inside `close`. -/
structure FetchEnv where
  init : InitOutcome
  navigate : Except String Unit
  execScript : Except String Unit
  pageSource : Except String String
  stripHtml : String → Except String String
  summarizeApi : String → Except String String
  quitRaises : Bool

/-- `ScraperSummarizer.init_driver`: returns the existing driver when one
is already initialized; otherwise attempts creation/configuration and
re-raises any exception (after logging). -/
def ScraperSummarizer.init_driver (env : FetchEnv) (st : ScraperState) :
    Except String Unit × ScraperState :=
  match st.driver with
  | some _ => (Except.ok (), st)
  | none =>
    match env.init with
    | InitOutcome.ok => (Except.ok (), { st with driver := some () })
    | InitOutcome.failBeforeAssign m => (Except.error m, st)
    | InitOutcome.failAfterAssign m => (Except.error m, { st with driver := some () })

/-- `ScraperSummarizer.close`: if a driver exists, `quit()` it — any
exception from `quit()` is caught and logged, and the `finally` block sets
`self.driver = None` regardless; if no driver exists, nothing happens.
Returns the new state and the attempted interactions. -/
def ScraperSummarizer.close (quitRaises : Bool) (st : ScraperState) :
    ScraperState × List Effect :=
  match st.driver with
  | none => (st, [])
  | some _ =>
    -- `driver.quit()` is attempted; whether or not it raises (`quitRaises`),
    -- the except clause swallows the exception and the finally clause
    -- clears the handle.
    ({ st with driver := none }, [Effect.quitDriver])

/-- The `try` block of `ScraperSummarizer.summarize`: init driver, navigate,
scroll script, page source, strip HTML, reduce/clean text, call the
summarizer.  Returns the result (or first exception), the state, and the
external interactions attempted, in order. -/
def ScraperSummarizer.tryBody (env : FetchEnv) (st : ScraperState) :
    Except String String × ScraperState × List Effect :=
  match ScraperSummarizer.init_driver env st with
  | (Except.error m, st') => (Except.error m, st', [Effect.initDriver])
  | (Except.ok _, st') =>
    match env.navigate with
    | Except.error m => (Except.error m, st', [Effect.initDriver, Effect.navigate])
    | Except.ok _ =>
      match env.execScript with
      | Except.error m =>
        (Except.error m, st', [Effect.initDriver, Effect.navigate, Effect.execScript])
      | Except.ok _ =>
        match env.pageSource with
        | Except.error m =>
          (Except.error m, st',
            [Effect.initDriver, Effect.navigate, Effect.execScript, Effect.getSource])
        | Except.ok html =>
          match env.stripHtml html with
          | Except.error m =>
            (Except.error m, st',
              [Effect.initDriver, Effect.navigate, Effect.execScript, Effect.getSource])
          | Except.ok stripped_text =>
            let reduced_content := removeQuotes (reduceContent stripped_text)
            match env.summarizeApi reduced_content with
            | Except.error m =>
              (Except.error m, st',
                [Effect.initDriver, Effect.navigate, Effect.execScript,
                  Effect.getSource, Effect.apiCall])
            | Except.ok summary =>
              (Except.ok summary, st',
                [Effect.initDriver, Effect.navigate, Effect.execScript,
                  Effect.getSource, Effect.apiCall])

/-- `ScraperSummarizer.summarize`: with no URL set, returns the fixed error
string immediately; otherwise runs the `try` block, converts any exception
into `"Error: " ++ message`, and unconditionally runs `close` in the
`finally` clause. -/
def ScraperSummarizer.summarize (env : FetchEnv) (st : ScraperState) :
    String × ScraperState × List Effect :=
  match st.url with
  | none => ("Error: No URL provided", st, [])
  | some _ =>
    match ScraperSummarizer.tryBody env st with
    | (Except.ok summary, st', effs) =>
      let (st'', closeEffs) := ScraperSummarizer.close env.quitRaises st'
      (summary, st'', effs ++ closeEffs)
    | (Except.error m, st', effs) =>
      let (st'', closeEffs) := ScraperSummarizer.close env.quitRaises st'
      ("Error: " ++ m, st'', effs ++ closeEffs)

/-! ## `urllib.parse` as used by `ScraperSummarizer.set_url`

`set_url` (scraper.py lines 49–63) computes

    parsed_url = urllib.parse.urlparse(url)
    safe_url = urllib.parse.urlunparse((
        parsed_url.scheme, parsed_url.netloc,
        urllib.parse.quote(parsed_url.path), parsed_url.params,
        urllib.parse.quote_plus(parsed_url.query, safe='=&'),
        urllib.parse.quote(parsed_url.fragment)))
    self.url = safe_url

The definitions below model the CPython implementations of `urlsplit`,
`urlparse`, `_splitparams`, `urlunsplit`, `urlunparse`, `quote` and
`quote_plus` (character lists stand for Python strings; percent-escaping
works on the UTF-8 bytes of each character, as CPython's
`quote_from_bytes` does).  The `ValueError` paths of `urlsplit`
(unbalanced IPv6 brackets, non-ASCII netloc failing the NFKC check) are
not modelled; the relevant theorems therefore speak about URLs, like the
ones in this program's domain, that parse without raising.
-/

/-- CPython `scheme_chars`: letters, digits, and `+`, `-`, `.`. -/
def isSchemeChar (c : Char) : Bool :=
  c.isAlpha || c.isDigit || c == '+' || c == '-' || c == '.'

/-- A WHATWG C0 control or space character (`_WHATWG_C0_CONTROL_OR_SPACE`). -/
def c0ControlOrSpace (c : Char) : Bool :=
  c.toNat ≤ 0x20

/-- One of `_UNSAFE_URL_BYTES_TO_REMOVE` (tab, carriage return, newline). -/
def isTabCrLf (c : Char) : Bool :=
  c == '\t' || c == '\r' || c == '\n'

/-- The sanitization `urlsplit` performs before splitting: strip leading
C0-control/space characters, then remove every tab/CR/LF. -/
def cleanUrl (s : String) : List Char :=
  (s.data.dropWhile c0ControlOrSpace).filter (fun c => !isTabCrLf c)

/-- The result of `urllib.parse.urlsplit`. -/
structure SplitParts where
  scheme : String
  netloc : String
  path : String
  query : String
  fragment : String
deriving DecidableEq, Repr

/-- Stop characters for `_splitnetloc`: the netloc extends to the first
`/`, `?` or `#`. -/
def isNetlocDelim (c : Char) : Bool :=
  c == '/' || c == '?' || c == '#'

/-- `urlsplit` on the sanitized character list: split off `scheme:`
(lower-cased, when the prefix before the first `:` is a valid scheme),
then `//netloc`, then the `#fragment`, then the `?query`. -/
def pyUrlsplitClean (l : List Char) : SplitParts :=
  let (scheme, rest) :=
    match l.findIdx? (· == ':') with
    | some i =>
      if 0 < i && (match l.head? with | some c => c.isAlpha | none => false)
          && (l.take i).all isSchemeChar then
        ((l.take i).map Char.toLower, l.drop (i + 1))
      else ([], l)
    | none => ([], l)
  let (netloc, rest2) :=
    if rest.take 2 = ['/', '/'] then
      ((rest.drop 2).takeWhile (fun c => !isNetlocDelim c),
        (rest.drop 2).dropWhile (fun c => !isNetlocDelim c))
    else ([], rest)
  let (rest3, fragment) :=
    match rest2.findIdx? (· == '#') with
    | some i => (rest2.take i, rest2.drop (i + 1))
    | none => (rest2, [])
  let (path, query) :=
    match rest3.findIdx? (· == '?') with
    | some i => (rest3.take i, rest3.drop (i + 1))
    | none => (rest3, [])
  ⟨⟨scheme⟩, ⟨netloc⟩, ⟨path⟩, ⟨query⟩, ⟨fragment⟩⟩

/-- `urllib.parse.urlsplit` (default `scheme=''`, `allow_fragments=True`). -/
def pyUrlsplit (s : String) : SplitParts :=
  pyUrlsplitClean (cleanUrl s)

/-- The result of `urllib.parse.urlparse`. -/
structure UrlParts where
  scheme : String
  netloc : String
  path : String
  params : String
  query : String
  fragment : String
deriving DecidableEq, Repr

/-- CPython `uses_params`: the schemes for which `urlparse` splits path
parameters. -/
def usesParams (scheme : String) : Bool :=
  ["", "ftp", "hdl", "prospero", "http", "imap", "https", "shttp", "rtsp",
    "rtsps", "rtspu", "sip", "sips", "mms", "sftp", "tel"].contains scheme

/-- CPython `uses_netloc`: the schemes for which `urlunsplit` re-inserts
the `//` authority marker. -/
def usesNetloc (scheme : String) : Bool :=
  ["", "ftp", "http", "gopher", "nntp", "telnet", "imap", "wais", "file",
    "mms", "https", "shttp", "snews", "prospero", "rtsp", "rtsps", "rtspu",
    "rsync", "svn", "svn+ssh", "sftp", "nfs", "git", "git+ssh", "ws",
    "wss"].contains scheme

/-- CPython `_splitparams`: split the path at the first `;` occurring in
its last `/`-separated segment. -/
def splitparams (l : List Char) : List Char × List Char :=
  if l.contains '/' then
    let j := l.length - 1 - ((l.reverse.findIdx? (· == '/')).getD 0)
    match (l.drop j).findIdx? (· == ';') with
    | some k => (l.take (j + k), l.drop (j + k + 1))
    | none => (l, [])
  else
    match l.findIdx? (· == ';') with
    | some i => (l.take i, l.drop (i + 1))
    | none => (l, [])

/-- `urllib.parse.urlparse`: `urlsplit`, then split path parameters when
the scheme uses them and the path contains `;`. -/
def pyUrlparse (s : String) : UrlParts :=
  let sp := pyUrlsplit s
  if usesParams sp.scheme && sp.path.data.contains ';' then
    let (p, par) := splitparams sp.path.data
    ⟨sp.scheme, sp.netloc, ⟨p⟩, ⟨par⟩, sp.query, sp.fragment⟩
  else
    ⟨sp.scheme, sp.netloc, sp.path, "", sp.query, sp.fragment⟩

/-- `urllib.parse.urlunsplit`: the `//` section is emitted when there is a
netloc, or when the scheme is one that uses a netloc and the path does not
already start with `//`. -/
def pyUrlunsplit (scheme netloc url query fragment : String) : String :=
  let url1 :=
    if netloc ≠ "" ∨
        (scheme ≠ "" ∧ usesNetloc scheme = true ∧ url.data.take 2 ≠ ['/', '/']) then
      let url' := if url ≠ "" ∧ url.data.take 1 ≠ ['/'] then "/" ++ url else url
      "//" ++ netloc ++ url'
    else url
  let url2 := if scheme ≠ "" then scheme ++ ":" ++ url1 else url1
  let url3 := if query ≠ "" then url2 ++ "?" ++ query else url2
  if fragment ≠ "" then url3 ++ "#" ++ fragment else url3

/-- `urllib.parse.urlunparse`: re-attach `;params` to the path, then
`urlunsplit`. -/
def pyUrlunparse (u : UrlParts) : String :=
  let url := if u.params ≠ "" then u.path ++ ";" ++ u.params else u.path
  pyUrlunsplit u.scheme u.netloc url u.query u.fragment

/-! ### `quote` and `quote_plus` -/

/-- CPython `_ALWAYS_SAFE` (minus the `safe` parameter): ASCII letters,
digits, and `_.-~`. -/
def alwaysSafe (c : Char) : Bool :=
  c.isAlpha || c.isDigit || c == '_' || c == '.' || c == '-' || c == '~'

/-- Uppercase hexadecimal digit for a value below 16. -/
def hexDigitUpper (n : Nat) : Char :=
  if n < 10 then Char.ofNat (48 + n) else Char.ofNat (55 + n)

/-- The `%XX` escape of one byte (uppercase hex, as CPython emits). -/
def pctEncodeByte (b : Nat) : List Char :=
  ['%', hexDigitUpper (b / 16), hexDigitUpper (b % 16)]

/-- The UTF-8 encoding of a character, as byte values (CPython
`str.encode('utf-8')`, applied by `quote` before escaping). -/
def utf8Bytes (c : Char) : List Nat :=
  let n := c.toNat
  if n < 0x80 then [n]
  else if n < 0x800 then [0xc0 + n / 64, 0x80 + n % 64]
  else if n < 0x10000 then
    [0xe0 + n / 4096, 0x80 + (n / 64) % 64, 0x80 + n % 64]
  else
    [0xf0 + n / 262144, 0x80 + (n / 4096) % 64, 0x80 + (n / 64) % 64,
      0x80 + n % 64]

/-- `quote` on one character: kept verbatim when it is always-safe or an
ASCII member of `safe`; otherwise each of its UTF-8 bytes is
percent-escaped.  (CPython restricts `safe` to its ASCII characters.) -/
def quoteChar (safe : List Char) (c : Char) : List Char :=
  if alwaysSafe c || (c.toNat < 128 && safe.contains c) then [c]
  else (utf8Bytes c).flatMap pctEncodeByte

/-- `urllib.parse.quote(s, safe)` (UTF-8 encoding, default errors). -/
def pyQuote (safe : String) (s : String) : String :=
  ⟨s.data.flatMap (quoteChar safe.data)⟩

/-- `urllib.parse.quote_plus(s, safe)`: when `s` contains a space, quote
with the space added to `safe` and then replace each space with `+`
(`str.replace` of the single-character pattern is a character map);
otherwise plain `quote`. -/
def pyQuotePlus (safe : String) (s : String) : String :=
  if s.data.contains ' ' then
    ⟨((pyQuote (safe ++ " ") s).data.map (fun c => if c == ' ' then '+' else c))⟩
  else pyQuote safe s

/-- The URL normalization performed by `ScraperSummarizer.set_url`:
parse, selectively encode path (safe `/`), query (`quote_plus`, safe
`=&`) and fragment (safe `/`), keep scheme/netloc/params, reassemble. -/
def normalizeUrl (url : String) : String :=
  let parsed_url := pyUrlparse url
  pyUrlunparse
    ⟨parsed_url.scheme, parsed_url.netloc, pyQuote "/" parsed_url.path,
      parsed_url.params, pyQuotePlus "=&" parsed_url.query,
      pyQuote "/" parsed_url.fragment⟩

/-- `ScraperSummarizer.set_url`: stores the normalized URL on the
instance (and returns `self`, i.e. the updated state). -/
def ScraperSummarizer.set_url (st : ScraperState) (url : String) : ScraperState :=
  { st with url := some (normalizeUrl url) }

/-! ## `summarizer.py`

`summarize_text` composes two completion-API round trips.  The remote
chat-completion endpoint is an oracle `api : String → Nat → String`
mapping (prompt, max_tokens) to the raw response content; `get_response`
strips the response (`content.strip()`) and is the single place the API
is called, so the embedding extends a call log `(prompt, max_tokens)`
there.  Sampling parameters (temperature 0.2, top_p 0.85, top_k 20) and
the model identifier are fixed constants of the request and are not part
of the observable behaviour modelled here.
-/

/-- The language-detection prompt built in `detect_language`
(`summarizer.py` lines 97–102; adjacent f-string literals concatenate
without separators). -/
def detectLanguagePrompt (text : String) : String :=
  "Recognize the main language of this text disregard the content, topic, or subject matter completely. Use a frequency analysis of the words. Always choose the language with the most words, regardless of whether there are other languages in the text. Do not make assumptions based on mentioned people, places, or organizations.\n\n" ++
  "At the end, **only enter the language as a single word** in the following form. No explanation, no introduction, no justification - just the keyword:\n\n" ++
  "Language: <language>" ++
  "Text:\n" ++ text ++ "\n\n"

/-- The summary prompt built in `create_summary` (`summarizer.py` lines
121–126). -/
def createSummaryPrompt (text language : String) : String :=
  "Read the following text and summarize its content briefly and precisely in **" ++
  language ++
  "** as continuous text. Try to limit the summary to a maximum of 300 words if appropriate." ++
  "Return **only** the summary in " ++ language ++
  " - without introduction, without original text, without explanation, without a translation:\n\n" ++
  text ++ "\n\n" ++
  "Divide the summary into paragraphs and separate each paragraph with a blank line (\n\n) to improve readability."

/-- `get_response(text, tokens)`: one completion-API call; the response
content is stripped.  The embedding also records the call. -/
def get_response (api : String → Nat → String) (text : String) (tokens : Nat)
    (calls : List (String × Nat)) : String × List (String × Nat) :=
  (pyStrip (api text tokens), calls ++ [(text, tokens)])

/-- `detect_language(text)`: one API call with max tokens 100; the result
is stripped (again) and used as the language name. -/
def detect_language (api : String → Nat → String) (text : String)
    (calls : List (String × Nat)) : String × List (String × Nat) :=
  let (r, calls') := get_response api (detectLanguagePrompt text) 100 calls
  (pyStrip r, calls')

/-- `create_summary(text, language)`: one API call with max tokens 1024;
the result is stripped (again). -/
def create_summary (api : String → Nat → String) (text language : String)
    (calls : List (String × Nat)) : String × List (String × Nat) :=
  let (r, calls') := get_response api (createSummaryPrompt text language) 1024 calls
  (pyStrip r, calls')

/-- `summarize_text(text)`: detect the language, then create the summary
in that language, returning the summary alone (plus the call log in the
embedding). -/
def summarize_text (api : String → Nat → String) (text : String) :
    String × List (String × Nat) :=
  let (language, calls₁) := detect_language api text []
  let (summary, calls₂) := create_summary api text language calls₁
  (summary, calls₂)

/-- A stubbed completion API: answers `"German"` on the
language-detection call (max tokens 100) and the fixed German summary on
the summary call. -/
def stubApi : String → Nat → String :=
  fun _ tokens => if tokens == 100 then "German" else "Ein Hund läuft."

/-! ## Helper lemmas -/

/-- `close` always leaves the driver handle cleared. -/
theorem close_driver_none (qr : Bool) (st : ScraperState) :
    (ScraperSummarizer.close qr st).1.driver = none := by
  cases hd : st.driver <;> simp [ScraperSummarizer.close, hd]

/-! ## C10 — `close` is idempotent and total on the session state -/

/-- C10: for every quit-behaviour and every instance state, `close` leaves
`self.driver = None` — including when no driver was ever created and when
`quit()` raises — and a second `close` is a no-op (state unchanged, no
`quit` attempted). -/
theorem close_clears_and_second_close_noop (qr : Bool) (st : ScraperState) :
    (ScraperSummarizer.close qr st).1.driver = none ∧
    ∀ qr' : Bool, ScraperSummarizer.close qr' (ScraperSummarizer.close qr st).1 =
      ((ScraperSummarizer.close qr st).1, []) := by
  cases hd : st.driver <;> simp [ScraperSummarizer.close, hd]

/-! ## C3 — `summarize` with no URL -/

/-- C3: when no URL has been set, `summarize` returns the fixed string
`"Error: No URL provided"` immediately, with the instance state unchanged
and no browser or API interaction attempted. -/
theorem summarize_no_url (env : FetchEnv) (st : ScraperState)
    (h : st.url = none) :
    ScraperSummarizer.summarize env st = ("Error: No URL provided", st, []) := by
  unfold ScraperSummarizer.summarize
  rw [h]

/-- An environment in which every external step succeeds trivially. -/
def idleEnv : FetchEnv where
  init := InitOutcome.ok
  navigate := Except.ok ()
  execScript := Except.ok ()
  pageSource := Except.ok ""
  stripHtml := fun h => Except.ok h
  summarizeApi := fun s => Except.ok s
  quitRaises := false

/-- Witness for C3 at a concrete state with no URL. -/
theorem summarize_no_url_witness :
    ({ url := none, driver := none } : ScraperState).url = none ∧
    ScraperSummarizer.summarize idleEnv { url := none, driver := none } =
      ("Error: No URL provided", { url := none, driver := none }, []) :=
  ⟨rfl, summarize_no_url idleEnv { url := none, driver := none } rfl⟩

/-! ## C2 — exceptions are caught and the session is released -/

/-- C2: with a URL set, `summarize` never lets an exception escape: if any
step of the `try` block (driver initialization, navigation, script
execution, extraction, or the summarization call) raises with message `m`,
the call returns `"Error: " ++ m`; and on every exit path — success or
failure, even when `quit()` itself raises — the `finally` clause has run
`close`, so the driver handle is cleared. -/
theorem summarize_catches_and_releases (env : FetchEnv) (st : ScraperState)
    (u : String) (hu : st.url = some u) :
    (ScraperSummarizer.summarize env st).2.1.driver = none ∧
    ∀ m, (ScraperSummarizer.tryBody env st).1 = Except.error m →
      (ScraperSummarizer.summarize env st).1 = "Error: " ++ m := by
  unfold ScraperSummarizer.summarize
  rw [hu]
  rcases htb : ScraperSummarizer.tryBody env st with ⟨res, st', effs⟩
  cases res with
  | ok s =>
    refine ⟨?_, ?_⟩
    · simp [close_driver_none]
    · intro m hm
      simp at hm
  | error m =>
    refine ⟨?_, ?_⟩
    · simp [close_driver_none]
    · intro m' hm
      simp at hm
      subst hm
      simp

/-- An environment whose navigation step (`driver.get`) raises. -/
def navFailEnv : FetchEnv where
  init := InitOutcome.ok
  navigate := Except.error "nav failed"
  execScript := Except.ok ()
  pageSource := Except.ok ""
  stripHtml := fun h => Except.ok h
  summarizeApi := fun s => Except.ok s
  quitRaises := true

/-- Witness for C2: a forced navigation failure yields the `Error:`-prefixed
string and a cleared driver handle. -/
theorem summarize_catches_and_releases_witness :
    ({ url := some "https://example.com/a", driver := none } : ScraperState).url =
      some "https://example.com/a" ∧
    (ScraperSummarizer.summarize navFailEnv
      { url := some "https://example.com/a", driver := none }).2.1.driver = none ∧
    (ScraperSummarizer.summarize navFailEnv
      { url := some "https://example.com/a", driver := none }).1 =
      "Error: " ++ "nav failed" :=
  ⟨rfl,
    (summarize_catches_and_releases navFailEnv _ _ rfl).1,
    (summarize_catches_and_releases navFailEnv _ _ rfl).2 "nav failed" rfl⟩

/-! ## C6 — a space in the path is percent-encoded -/

/-- C6: `set_url` applied to `https://example.com/a b` stores exactly
`https://example.com/a%20b`. -/
theorem set_url_space_in_path :
    normalizeUrl "https://example.com/a b" = "https://example.com/a%20b" ∧
    ∀ st : ScraperState,
      (ScraperSummarizer.set_url st "https://example.com/a b").url =
        some "https://example.com/a%20b" :=
  have h : normalizeUrl "https://example.com/a b" = "https://example.com/a%20b" := by
    decide
  ⟨h, fun _ => congrArg some h⟩

/-! ## C4 — `set_url` normalization is not idempotent -/

/-- Counterexample to C4: normalizing `https://example.com/a b` once gives
`https://example.com/a%20b`, but normalizing a second time re-encodes the
percent sign, giving `https://example.com/a%2520b`. -/
theorem normalizeUrl_not_idempotent :
    normalizeUrl (normalizeUrl "https://example.com/a b") ≠
      normalizeUrl "https://example.com/a b" ∧
    normalizeUrl (normalizeUrl "https://example.com/a b") =
      "https://example.com/a%2520b" := by
  decide

/-- C4 (amended): normalization is not idempotent in general;
it is idempotent on every URL it already leaves unchanged, and being
left unchanged is sufficient but not necessary for idempotence:
`HTTP://example.com/ab` is rewritten (the scheme is lowercased) yet
normalizes idempotently, because its image `http://example.com/ab` is
itself left unchanged. -/
theorem normalizeUrl_idem_sufficient_not_necessary :
    (∀ u : String, normalizeUrl u = u →
      normalizeUrl (normalizeUrl u) = normalizeUrl u) ∧
    normalizeUrl "HTTP://example.com/ab" ≠ "HTTP://example.com/ab" ∧
    normalizeUrl (normalizeUrl "HTTP://example.com/ab") =
      normalizeUrl "HTTP://example.com/ab" :=
  ⟨fun u h => by rw [h, h], by decide, by decide⟩

/-- Witness for the amended C4, discharging the fixed-point hypothesis at
a URL that normalization leaves unchanged. -/
theorem normalizeUrl_idem_sufficient_not_necessary_witness :
    normalizeUrl "https://example.com/ab?a=b" = "https://example.com/ab?a=b" ∧
    normalizeUrl (normalizeUrl "https://example.com/ab?a=b") =
      normalizeUrl "https://example.com/ab?a=b" :=
  ⟨by decide,
    normalizeUrl_idem_sufficient_not_necessary.1 "https://example.com/ab?a=b"
      (by decide)⟩

/-! ## C7 — scheme and authority through `set_url` -/

/-- Counterexample to C7: the scheme substring is not left unchanged —
`urlparse` lowercases it, so `set_url` rewrites `HTTP://example.com/a`
(path, query and fragment untouched) into `http://example.com/a`. -/
theorem set_url_lowercases_scheme :
    normalizeUrl "HTTP://example.com/a" = "http://example.com/a" ∧
    "http://example.com/a" ≠ "HTTP://example.com/a" := by
  decide

/-- Merging the `:` emitted for the scheme with the `//` emitted for the
netloc. -/
theorem colon_slash_slash (x : String) : ":" ++ ("//" ++ x) = "://" ++ x := by
  rw [← String.append_assoc]
  exact congrArg (· ++ x) (by decide)

/-- Reassociation of `scheme:` + `//netloc` + path + query + fragment. -/
theorem scheme_netloc_prefix_qf (s n U q f : String) :
    s ++ ":" ++ ("//" ++ n ++ U) ++ "?" ++ q ++ "#" ++ f =
      s ++ "://" ++ n ++ (U ++ "?" ++ q ++ "#" ++ f) := by
  simp only [String.append_assoc]
  rw [colon_slash_slash]

/-- Reassociation of `scheme:` + `//netloc` + path + query. -/
theorem scheme_netloc_prefix_q (s n U q : String) :
    s ++ ":" ++ ("//" ++ n ++ U) ++ "?" ++ q =
      s ++ "://" ++ n ++ (U ++ "?" ++ q) := by
  simp only [String.append_assoc]
  rw [colon_slash_slash]

/-- Reassociation of `scheme:` + `//netloc` + path + fragment. -/
theorem scheme_netloc_prefix_f (s n U f : String) :
    s ++ ":" ++ ("//" ++ n ++ U) ++ "#" ++ f =
      s ++ "://" ++ n ++ (U ++ "#" ++ f) := by
  simp only [String.append_assoc]
  rw [colon_slash_slash]

/-- Reassociation of `scheme:` + `//netloc` + path. -/
theorem scheme_netloc_prefix_plain (s n U : String) :
    s ++ ":" ++ ("//" ++ n ++ U) = s ++ "://" ++ n ++ U := by
  simp only [String.append_assoc]
  rw [colon_slash_slash]

/-- `pyUrlunparse` emits the scheme and netloc it is given verbatim, as
the `scheme://netloc` prefix of the reassembled URL (when both are
nonempty). -/
theorem unparse_scheme_netloc_prefix (P : UrlParts) (hs : P.scheme ≠ "")
    (hn : P.netloc ≠ "") :
    ∃ rest : String, pyUrlunparse P = P.scheme ++ "://" ++ P.netloc ++ rest := by
  simp only [pyUrlunparse, pyUrlunsplit]
  rw [if_pos (Or.inl hn), if_pos hs]
  split <;> split
  · exact ⟨_, scheme_netloc_prefix_qf _ _ _ _ _⟩
  · exact ⟨_, scheme_netloc_prefix_f _ _ _ _⟩
  · exact ⟨_, scheme_netloc_prefix_q _ _ _ _⟩
  · exact ⟨_, scheme_netloc_prefix_plain _ _ _⟩

/-- C7 (amended): `set_url` passes the parsed authority through unchanged
and the parsed scheme through as lowercased by `urlparse`; for a URL with
scheme and authority, the stored URL is `scheme://netloc` followed by the
re-encoded path/params/query/fragment.  Only the lowercasing of the
scheme distinguishes this from the original claim. -/
theorem set_url_keeps_scheme_netloc (u : String)
    (hs : (pyUrlparse u).scheme ≠ "") (hn : (pyUrlparse u).netloc ≠ "") :
    ∃ rest : String, normalizeUrl u =
      (pyUrlparse u).scheme ++ "://" ++ (pyUrlparse u).netloc ++ rest := by
  unfold normalizeUrl
  exact unparse_scheme_netloc_prefix _ hs hn

/-- Witness for the amended C7 at `HTTP://example.com/a b?x=1`. -/
theorem set_url_keeps_scheme_netloc_witness :
    (pyUrlparse "HTTP://example.com/a b?x=1").scheme ≠ "" ∧
    (pyUrlparse "HTTP://example.com/a b?x=1").netloc ≠ "" ∧
    ∃ rest : String, normalizeUrl "HTTP://example.com/a b?x=1" =
      (pyUrlparse "HTTP://example.com/a b?x=1").scheme ++ "://" ++
        (pyUrlparse "HTTP://example.com/a b?x=1").netloc ++ rest :=
  ⟨by decide, by decide, set_url_keeps_scheme_netloc _ (by decide) (by decide)⟩

/-! ## C5 — `=`/`&` preserved, but the query space becomes `+` -/

/-- Counterexample to C5: in a query containing `=`, `&` and a literal
space, `set_url` keeps `=` and `&` but encodes the space as `+`
(form encoding) — the result contains no percent sign at all, so the
space was not percent-encoded. -/
theorem set_url_query_space_not_pct :
    normalizeUrl "https://example.com/p?a=b c&d=e" =
      "https://example.com/p?a=b+c&d=e" ∧
    '%' ∉ (normalizeUrl "https://example.com/p?a=b c&d=e").data ∧
    ' ' ∉ (normalizeUrl "https://example.com/p?a=b c&d=e").data := by
  decide

/-- The per-character query encoding realized by
`quote_plus(query, safe='=&')`: a space becomes `+`; any other character
is kept exactly when `quote` with safe set `=&` keeps it (so `=` and `&`
are kept), and is percent-escaped otherwise. -/
def queryEncChar (c : Char) : List Char :=
  if c == ' ' then ['+'] else quoteChar ['=', '&'] c

/-- Every Unicode code point is below `0x110000`. -/
theorem char_toNat_lt_1114112 (c : Char) : c.toNat < 1114112 := by
  have h : c.toNat < 0xd800 ∨ (0xe000 ≤ c.toNat ∧ c.toNat < 0x110000) := c.valid
  omega

/-- UTF-8 encoding produces byte values. -/
theorem utf8Bytes_lt_256 (c : Char) : ∀ b ∈ utf8Bytes c, b < 256 := by
  intro b hb
  have hc : c.toNat < 1114112 := char_toNat_lt_1114112 c
  simp only [utf8Bytes] at hb
  by_cases h1 : c.toNat < 128
  · simp only [if_pos h1, List.mem_singleton] at hb
    have h : b = c.toNat := hb
    omega
  · by_cases h2 : c.toNat < 2048
    · simp only [if_neg h1, if_pos h2, List.mem_cons, List.mem_singleton,
        List.not_mem_nil, or_false] at hb
      rcases hb with h | h
      · have h' : b = 192 + c.toNat / 64 := h
        omega
      · have h' : b = 128 + c.toNat % 64 := h
        omega
    · by_cases h3 : c.toNat < 65536
      · simp only [if_neg h1, if_neg h2, if_pos h3, List.mem_cons,
          List.mem_singleton, List.not_mem_nil, or_false] at hb
        rcases hb with h | h | h
        · have h' : b = 224 + c.toNat / 4096 := h
          omega
        · have h' : b = 128 + c.toNat / 64 % 64 := h
          omega
        · have h' : b = 128 + c.toNat % 64 := h
          omega
      · simp only [if_neg h1, if_neg h2, if_neg h3, List.mem_cons,
          List.mem_singleton, List.not_mem_nil, or_false] at hb
        rcases hb with h | h | h | h
        · have h' : b = 240 + c.toNat / 262144 := h
          omega
        · have h' : b = 128 + c.toNat / 4096 % 64 := h
          omega
        · have h' : b = 128 + c.toNat / 64 % 64 := h
          omega
        · have h' : b = 128 + c.toNat % 64 := h
          omega

/-- An uppercase hex digit is never a space. -/
theorem hexDigitUpper_ne_space : ∀ n, n < 16 → hexDigitUpper n ≠ ' ' := by
  decide

/-- The space-to-plus substitution of `quote_plus` does not touch a
percent escape. -/
theorem pctEncodeByte_map_space (b : Nat) (hb : b < 256) :
    (pctEncodeByte b).map (fun a => if a == ' ' then '+' else a) =
      pctEncodeByte b := by
  have h1 : (hexDigitUpper (b / 16) == ' ') = false :=
    beq_eq_false_iff_ne.mpr (hexDigitUpper_ne_space _ (by omega))
  have h2 : (hexDigitUpper (b % 16) == ' ') = false :=
    beq_eq_false_iff_ne.mpr (hexDigitUpper_ne_space _ (by omega))
  have h3 : (('%' : Char) == ' ') = false := by decide
  simp [pctEncodeByte, h1, h2, h3]
  exact ⟨fun hh => absurd hh (hexDigitUpper_ne_space _ (by omega)),
    fun hh => absurd hh (hexDigitUpper_ne_space _ (by omega))⟩

/-- On one character, quoting with safe set `=& ` and then replacing
spaces by `+` is exactly the query encoding. -/
theorem quoteChar_map_space (c : Char) :
    (quoteChar ['=', '&', ' '] c).map (fun a => if a == ' ' then '+' else a) =
      queryEncChar c := by
  by_cases hsp : c = ' '
  · subst hsp; decide
  · have hbe : (c == ' ') = false := beq_eq_false_iff_ne.mpr hsp
    have hmem : (['=', '&', ' '].contains c) = (['=', '&'].contains c) := by
      simp [List.contains_cons, hbe, decide_eq_false hsp]
    simp only [queryEncChar, quoteChar, hbe, Bool.false_eq_true, if_false, hmem]
    split
    · simp only [List.map_cons, List.map_nil]
      rw [if_neg (by simp [hbe])]
    · rw [List.map_flatMap]
      exact List.flatMap_congr fun b hb =>
        pctEncodeByte_map_space b (utf8Bytes_lt_256 c b hb)

/-- `quote_plus(s, safe='=&')` is the character-by-character query
encoding: `=` and `&` (and the always-safe characters) pass through, a
space becomes `+`, everything else is percent-escaped. -/
theorem pyQuotePlus_query_eq (s : String) :
    pyQuotePlus "=&" s = ⟨s.data.flatMap queryEncChar⟩ := by
  unfold pyQuotePlus
  split
  case isTrue h =>
    show (⟨(pyQuote ("=&" ++ " ") s).data.map _⟩ : String) = _
    unfold pyQuote
    have hsafe : ("=&" ++ " ").data = ['=', '&', ' '] := rfl
    rw [hsafe]
    congr 1
    rw [List.map_flatMap]
    exact List.flatMap_congr fun c _ => quoteChar_map_space c
  case isFalse h =>
    unfold pyQuote
    congr 1
    refine List.flatMap_congr fun c hc => ?_
    have hne : c ≠ ' ' := by
      intro he
      exact h (by rw [← he] at *; exact List.elem_iff.mpr hc)
    have hbe : (c == ' ') = false := beq_eq_false_iff_ne.mpr hne
    have hsafe : ("=&" : String).data = ['=', '&'] := rfl
    rw [hsafe]
    simp [queryEncChar, hbe]

/-- C5 (amended): `set_url` rewrites the query with the per-character
encoding `queryEncChar`, which leaves every `=` and `&` unchanged and
encodes a literal space as `+` (form encoding) rather than as a percent
escape. -/
theorem set_url_query_encoding (u : String) :
    normalizeUrl u =
      pyUrlunparse
        ⟨(pyUrlparse u).scheme, (pyUrlparse u).netloc,
          pyQuote "/" (pyUrlparse u).path, (pyUrlparse u).params,
          ⟨(pyUrlparse u).query.data.flatMap queryEncChar⟩,
          pyQuote "/" (pyUrlparse u).fragment⟩ ∧
    queryEncChar '=' = ['='] ∧ queryEncChar '&' = ['&'] ∧
    queryEncChar ' ' = ['+'] := by
  refine ⟨?_, by decide, by decide, by decide⟩
  simp only [normalizeUrl]
  rw [pyQuotePlus_query_eq]

/-! ## C8 — word truncation -/

/-- Words produced by `pySplitAux` are nonempty and whitespace-free
(provided the accumulator is whitespace-free). -/
theorem pySplitAux_words_clean (l : List Char) :
    ∀ acc : List Char, (∀ c ∈ acc, pyIsSpace c = false) →
      ∀ w ∈ pySplitAux l acc, w ≠ [] ∧ ∀ c ∈ w, pyIsSpace c = false := by
  induction l with
  | nil =>
    intro acc hacc w hw
    unfold pySplitAux at hw
    split at hw
    case isTrue => simp at hw
    case isFalse hne =>
      simp only [List.mem_singleton] at hw
      subst hw
      refine ⟨?_, fun c hc => hacc c (List.mem_reverse.mp hc)⟩
      simp only [ne_eq, List.reverse_eq_nil_iff]
      exact fun h => hne (by simp [h])
  | cons c cs ih =>
    intro acc hacc w hw
    unfold pySplitAux at hw
    split at hw
    case isTrue hsp =>
      split at hw
      case isTrue => exact ih [] (by simp) w hw
      case isFalse hne =>
        rcases List.mem_cons.mp hw with hw | hw
        · subst hw
          refine ⟨?_, fun a ha => hacc a (List.mem_reverse.mp ha)⟩
          simp only [ne_eq, List.reverse_eq_nil_iff]
          exact fun h => hne (by simp [h])
        · exact ih [] (by simp) w hw
    case isFalse hsp =>
      refine ih (c :: acc) ?_ w hw
      intro a ha
      rcases List.mem_cons.mp ha with ha | ha
      · subst ha
        exact Bool.not_eq_true _ ▸ (by simpa using hsp)
      · exact hacc a ha

/-- Unfolding equation of `pySplitAux` on a cons cell. -/
theorem pySplitAux_cons (c : Char) (cs acc : List Char) :
    pySplitAux (c :: cs) acc =
      if pyIsSpace c then
        if acc.isEmpty then pySplitAux cs [] else acc.reverse :: pySplitAux cs []
      else pySplitAux cs (c :: acc) := rfl

/-- Unfolding equation of `pySplitAux` on the empty list. -/
theorem pySplitAux_nil (acc : List Char) :
    pySplitAux [] acc = if acc.isEmpty then [] else [acc.reverse] := rfl

/-- `pySplitAux` consumes a whitespace-free chunk into the accumulator. -/
theorem pySplitAux_word_append (w : List Char) :
    ∀ (l acc : List Char), (∀ c ∈ w, pyIsSpace c = false) →
      pySplitAux (w ++ l) acc = pySplitAux l (w.reverse ++ acc) := by
  induction w with
  | nil => intro l acc _; simp
  | cons c cs ih =>
    intro l acc hw
    have hc : pyIsSpace c = false := hw c (by simp)
    show pySplitAux (c :: (cs ++ l)) acc = _
    rw [pySplitAux_cons, if_neg (by simp [hc]),
      ih l (c :: acc) (fun a ha => hw a (by simp [ha]))]
    simp [List.reverse_cons, List.append_assoc]

/-- Splitting the single-space join of nonempty whitespace-free words
recovers exactly those words. -/
theorem pySplit_joinSpaces (ws : List (List Char))
    (hws : ∀ w ∈ ws, w ≠ [] ∧ ∀ c ∈ w, pyIsSpace c = false) :
    pySplitAux (joinSpaces ws) [] = ws := by
  induction ws with
  | nil => rfl
  | cons w ws ih =>
    rcases hws w (by simp) with ⟨hne, hcs⟩
    cases ws with
    | nil =>
      show pySplitAux (joinSpaces [w]) [] = [w]
      have hjw : joinSpaces [w] = w ++ [] := by simp [joinSpaces]
      rw [hjw, pySplitAux_word_append w [] [] hcs, pySplitAux_nil,
        if_neg (by simp [hne])]
      simp
    | cons w₂ ws₂ =>
      show pySplitAux (w ++ ' ' :: joinSpaces (w₂ :: ws₂)) [] = w :: w₂ :: ws₂
      rw [pySplitAux_word_append w _ [] hcs, pySplitAux_cons,
        if_pos (by decide), if_neg (by simp [hne]),
        ih (fun v hv => hws v (by simp [hv]))]
      simp

/-- C8: the fetch path keeps exactly the first `number_of_words` = 5000
words of the extracted text, joined by single spaces — the words of the
reduced content are precisely `words[:5000]` — and when the text has at
most 5000 words the reduction is plain whitespace normalization. -/
theorem reduceContent_truncates (stripped_text : String) :
    pyWords (reduceContent stripped_text) =
      (pyWords stripped_text).take number_of_words ∧
    ((pyWords stripped_text).length ≤ number_of_words →
      reduceContent stripped_text = wsNormalize stripped_text) := by
  constructor
  · show pySplitAux (joinSpaces ((pyWords stripped_text).take number_of_words)) [] = _
    exact pySplit_joinSpaces _ fun w hw =>
      pySplitAux_words_clean _ [] (by simp) w (List.mem_of_mem_take hw)
  · intro h
    unfold reduceContent wsNormalize
    rw [List.take_of_length_le h]

/-- Witness for C8 at a short concrete text. -/
theorem reduceContent_truncates_witness :
    (pyWords "  hello   world ").length ≤ number_of_words ∧
    pyWords (reduceContent "  hello   world ") =
      (pyWords "  hello   world ").take number_of_words ∧
    reduceContent "  hello   world " = wsNormalize "  hello   world " :=
  ⟨by decide, (reduceContent_truncates "  hello   world ").1,
    (reduceContent_truncates "  hello   world ").2 (by decide)⟩

/-! ## C9 — quote stripping -/

/-- C9: the text handed to `summarize_text` — the truncated extracted
text after `replace("'", "").replace('"', '')` — contains no
single-quote and no double-quote character. -/
theorem removeQuotes_no_quotes (stripped_text : String) :
    sQuoteChar ∉ (removeQuotes (reduceContent stripped_text)).data ∧
    dQuoteChar ∉ (removeQuotes (reduceContent stripped_text)).data := by
  constructor <;> intro hmem <;>
    simp [removeQuotes, pyRemoveChar, List.mem_filter] at hmem

/-! ## C1 — `summarize_text` makes exactly two calls, in order -/

/-- Dropping leading whitespace from an already left-and-right-stripped
list is a no-op. -/
theorem dropWhile_rdropWhile_dropWhile (p : Char → Bool) (l : List Char) :
    (List.rdropWhile p (l.dropWhile p)).dropWhile p =
      List.rdropWhile p (l.dropWhile p) := by
  cases hx : List.rdropWhile p (l.dropWhile p) with
  | nil => simp
  | cons a as =>
    apply List.dropWhile_cons_of_neg
    obtain ⟨t, ht⟩ := List.rdropWhile_prefix p (l.dropWhile p)
    rw [hx] at ht
    have h9 : (l.dropWhile p).head? = some a := by
      rw [← ht]; rfl
    have hh := List.head?_dropWhile_not p l
    rw [h9] at hh
    have h10 : p a = false := hh
    simp [h10]

/-- Python `strip()` is idempotent. -/
theorem pyStrip_idem (s : String) : pyStrip (pyStrip s) = pyStrip s := by
  show (⟨List.rdropWhile pyIsSpace
      ((List.rdropWhile pyIsSpace (s.data.dropWhile pyIsSpace)).dropWhile
        pyIsSpace)⟩ : String) =
    ⟨List.rdropWhile pyIsSpace (s.data.dropWhile pyIsSpace)⟩
  rw [dropWhile_rdropWhile_dropWhile, List.rdropWhile_idempotent]

/-- C1: `summarize_text` makes exactly two completion-API calls, in
order — first the language-detection prompt with max tokens 100, then the
summary prompt with max tokens 1024 — and returns exactly the trimmed
text of the second call's response; on the stubbed API that reports
language `"German"` and summary `"Ein Hund läuft."` for the page text
`"Der Hund läuft schnell."`, the pipeline returns exactly
`"Ein Hund läuft."`. -/
theorem summarize_text_two_calls :
    (∀ (api : String → Nat → String) (text : String),
      (summarize_text api text).2 =
        [(detectLanguagePrompt text, 100),
          (createSummaryPrompt text (detect_language api text []).1, 1024)] ∧
      (summarize_text api text).1 =
        pyStrip (api
          (createSummaryPrompt text (detect_language api text []).1) 1024)) ∧
    (summarize_text stubApi "Der Hund läuft schnell.").1 = "Ein Hund läuft." ∧
    (summarize_text stubApi "Der Hund läuft schnell.").2.map Prod.snd =
      [100, 1024] := by
  refine ⟨fun api text => ⟨rfl, ?_⟩, by decide, by decide⟩
  show pyStrip (pyStrip
      (api (createSummaryPrompt text (detect_language api text []).1) 1024)) = _
  rw [pyStrip_idem]
